import Mathlib

/-!  Shallow embedding of the moderation control plane of the debate server:
the `PrivilegedNamespace` event handlers from `src/namespace/privilegednamespace.js`
and the `LoginMiddleware` connection gate.  Handlers are modelled as pure
functions from the namespace state and the request arguments to a result
record carrying the next state, the ordered list of observable effects
(callback invocations, database calls, debate-entity operations) and a flag
recording whether the handler threw.  Asynchronous collaborator calls
(persistence, credential lookup) are parameterized by their outcome.  -/

/-- A dynamically typed JavaScript value, as far as the handlers inspect one. -/
inductive Value where
  | vNull
  | vUndefined
  | vBool (b : Bool)
  | vInt (n : Int)
  | vStr (s : String)
  | vArr (elems : List Value)
  | vObj (fields : List (String × Value))
deriving Repr

/-- JavaScript truthiness of a value (used by `if (!password)` style guards). -/
def truthy : Value → Bool
  | .vNull => false
  | .vUndefined => false
  | .vBool b => b
  | .vInt n => n != 0
  | .vStr s => s ≠ ""
  | .vArr _ => true
  | .vObj _ => true

/-- Loose equality to null (`x != null` is false exactly on null and undefined). -/
def isNullish : Value → Bool
  | .vNull => true
  | .vUndefined => true
  | _ => false

/-- Association-list lookup, modelling `Map.get` (absent key yields undefined). -/
def mget {α β : Type} [DecidableEq α] : List (α × β) → α → Option β
  | [], _ => none
  | (k, v) :: rest, k' => if k = k' then some v else mget rest k'

/-- `Map.set`: replace the binding in place when the key exists, else append. -/
def mset {α β : Type} [DecidableEq α] : List (α × β) → α → β → List (α × β)
  | [], k, v => [(k, v)]
  | (k', v') :: rest, k, v =>
      if k' = k then (k, v) :: rest else (k', v') :: mset rest k v

/-- `Map.delete`: remove the binding for a key. -/
def mdel {α β : Type} [DecidableEq α] : List (α × β) → α → List (α × β)
  | [], _ => []
  | (k', v') :: rest, k => if k' = k then mdel rest k else (k', v') :: mdel rest k

/-- `Set.add` on an insertion-ordered integer set. -/
def sadd (s : List Int) (x : Int) : List Int := if x ∈ s then s else s ++ [x]

/-- `Set.delete` on an insertion-ordered integer set. -/
def sdel (s : List Int) (x : Int) : List Int := s.filter (fun y => y ≠ x)

/-- Modelled from the spec: `TypeCheck.isString(v)` from the input-shape
validation helpers (not under src) — the value is a string. -/
def isString : Value → Bool
  | .vStr _ => true
  | _ => false

/-- Modelled from the spec: `TypeCheck.isString(v, maxLength)` — a string
within a configuration-supplied maximum length. -/
def isStringMax (v : Value) (maxLen : Nat) : Bool :=
  match v with
  | .vStr s => s.length ≤ maxLen
  | _ => false

/-- Modelled from the spec: `TypeCheck.isInteger(v)` — numeric identifiers
are integers. -/
def isInteger : Value → Bool
  | .vInt _ => true
  | _ => false

/-- Modelled from the spec: `TypeCheck.isBoolean(v)`. -/
def isBoolean : Value → Bool
  | .vBool _ => true
  | _ => false

/-- Modelled from the spec: `TypeCheck.isArrayOf(v, TypeCheck.isString, maxCount)`
— an array of strings within the configuration-supplied maximum answer count. -/
def isStringArrayMax (v : Value) (maxCount : Nat) : Bool :=
  match v with
  | .vArr xs => xs.length ≤ maxCount && xs.all isString
  | _ => false

/-- Modelled from the spec: `DebateConfig.MAX_TITLE_LENGTH`, a
configuration-supplied bound (concrete value arbitrary). -/
def MAX_TITLE_LENGTH : Nat := 256

/-- Modelled from the spec: `DebateConfig.MAX_DESCRIPTION_LENGTH`, a
configuration-supplied bound (concrete value arbitrary). -/
def MAX_DESCRIPTION_LENGTH : Nat := 2048

/-- Modelled from the spec: `DebateConfig.MAX_CLOSED_ANSWERS`, a
configuration-supplied bound (concrete value arbitrary). -/
def MAX_CLOSED_ANSWERS : Nat := 8

/-- JavaScript property access / destructuring: `none` models the TypeError
thrown by reading a property of null or undefined; on an object an absent
field reads as undefined; other primitives yield undefined for these fields. -/
def getProp : Value → String → Option Value
  | .vNull, _ => none
  | .vUndefined, _ => none
  | .vObj fields, k => some ((mget fields k).getD .vUndefined)
  | _, _ => some .vUndefined

/-- Approval state of an audience suggestion (owned by the Debate Entity). -/
inductive SuggState where
  | pending
  | approved
  | rejected
deriving Repr, DecidableEq

/-- An audience suggestion held by a debate. -/
structure Suggestion where
  id : Int
  content : String
  state : SuggState
deriving Repr, DecidableEq

/-- A question of a debate: title, ordered answer choices, open-ended flag. -/
structure Question where
  id : Int
  title : String
  answers : List String
  isOpenQuestion : Bool
deriving Repr, DecidableEq

/-- A live debate held in the Debate Registry. -/
structure Debate where
  debateID : Int
  title : String
  description : String
  questions : List Question
  suggestions : List Suggestion
deriving Repr, DecidableEq

/-- A Moderator Session entry: connection handle plus tracked debate ids. -/
structure UserEntry where
  socket : Nat
  activeDebates : List Int
deriving Repr, DecidableEq

/-- The mutable state of the privileged namespace: the Debate Registry
(`activeDebates`), the Session Registry (`users`), and the next fresh debate
identifier (modelled from the spec: the Debate Entity assigns a
process-unique integer identifier at construction, never reused). -/
structure PNState where
  activeDebates : List (Int × Debate)
  users : List (String × UserEntry)
  nextDebateID : Int
deriving Repr, DecidableEq

/-- The empty namespace state at process start. -/
def initState : PNState := { activeDebates := [], users := [], nextDebateID := 0 }

/-- An observable effect of a handler, in program order. -/
inductive Effect where
  | callbackCall (v : Value)
  | dbSaveDiscussion (id : Int)
  | dbSaveEndDiscussion (id : Int)
  | dbGetDiscussionsAdmin (username : String)
  | debateStartSocketHandling (id : Int)
  | sendQuestion (debateId : Int) (q : Question)
  | dbGetAdminPassword (username : String)
  | bcryptCompare
  | dbGetAdminId (username : String)
deriving Repr

/-- The result of running one handler: next state, ordered effects, and
whether the handler threw instead of running to completion. -/
structure HRes where
  state : PNState
  events : List Effect
  threw : Bool
deriving Repr

/-- The values passed to the reply callback, in order. -/
def calls (r : HRes) : List Value :=
  r.events.filterMap (fun e =>
    match e with
    | .callbackCall v => some v
    | _ => none)

/-- Outcome of an awaited collaborator promise. -/
inductive POutcome where
  | resolve (v : Value)
  | reject (v : Value)
deriving Repr

/-- `getActiveDebate(id)`: Map.get on the Debate Registry (integer keys only,
so a non-integer id is never found). -/
def getActiveDebate (s : PNState) (idv : Value) : Option Debate :=
  match idv with
  | .vInt n => mget s.activeDebates n
  | _ => none

/-- The tracked debate-id set of a moderator (empty when the session is
absent); `users.get(u).activeDebates` where defined. -/
def trackedOf (s : PNState) (u : String) : List Int :=
  match mget s.users u with
  | some e => e.activeDebates
  | none => []

/-- `initializeUsers(socket)`: replace the connection handle in place for a
known username, else create a fresh entry with an empty tracked set. -/
def initializeUsers (s : PNState) (username : String) (socket : Nat) : PNState :=
  match mget s.users username with
  | some entry => { s with users := mset s.users username { entry with socket := socket } }
  | none => { s with users := mset s.users username { socket := socket, activeDebates := [] } }

/-- Modelled from the spec: constructing `new Debate(title, description, ...)`
with a process-unique identifier supplied by the registry state. -/
def mkDebate (id : Int) (title description : String) : Debate :=
  { debateID := id, title := title, description := description,
    questions := [], suggestions := [] }

/-- Modelled from the spec: `new debate.Question(title, answers, isOpenQuestion)`
— the Debate Entity assigns the question an identifier scoped to the debate. -/
def mkQuestion (d : Debate) (title : String) (answers : List String) (isOpen : Bool) : Question :=
  { id := (d.questions.length : Int), title := title, answers := answers,
    isOpenQuestion := isOpen }

/-- Modelled from the spec: `debate.sendNewQuestion(question)` stores the
question on the debate (the broadcast fan-out is recorded as an effect). -/
def debateSendNewQuestion (d : Debate) (q : Question) : Debate :=
  { d with questions := d.questions ++ [q] }

/-- Modelled from the spec: `q.format()` of the Debate Entity. -/
def formatQuestion (q : Question) : Value :=
  .vObj [("id", .vInt q.id), ("title", .vStr q.title),
         ("answers", .vArr (q.answers.map .vStr)),
         ("isOpenQuestion", .vBool q.isOpenQuestion)]

/-- Modelled from the spec: `questionSuggestion.getApprovedSuggestions()` —
the approved subset of the debate's suggestions. -/
def getApprovedSuggestions (d : Debate) : List Value :=
  (d.suggestions.filter (fun sg => sg.state = SuggState.approved)).map (fun sg => .vStr sg.content)

/-- Modelled from the spec: `questionSuggestion.approveSuggestion(id)` —
fails when the suggestion is absent or already decided, else marks it
approved. -/
def approveSuggestion (d : Debate) (sid : Int) : Debate × Bool :=
  match d.suggestions.find? (fun sg => sg.id == sid) with
  | some sg =>
      if sg.state = SuggState.pending then
        ({ d with suggestions := d.suggestions.map (fun x =>
              if x.id == sid then { x with state := SuggState.approved } else x) }, true)
      else (d, false)
  | none => (d, false)

/-- Modelled from the spec: `questionSuggestion.rejectSuggestion(id)` —
fails when the suggestion is absent or already decided, else marks it
rejected. -/
def rejectSuggestion (d : Debate) (sid : Int) : Debate × Bool :=
  match d.suggestions.find? (fun sg => sg.id == sid) with
  | some sg =>
      if sg.state = SuggState.pending then
        ({ d with suggestions := d.suggestions.map (fun x =>
              if x.id == sid then { x with state := SuggState.rejected } else x) }, true)
      else (d, false)
  | none => (d, false)

/-- A discussion summary as resolved by `dbManager.getDiscussionsAdmin`. -/
structure Discussion where
  dbId : Int
  title : String
  description : String
  finishTime : Value
deriving Repr

/-- The record `getDebates` pushes for one stored discussion
(`closed: discussion.finishTime != null`). -/
def discussionRecord (d : Discussion) : Value :=
  .vObj [("debateId", .vInt d.dbId), ("title", .vStr d.title),
         ("description", .vStr d.description),
         ("closed", .vBool (!(isNullish d.finishTime)))]

/-- The tracked-set loop of `getDebates`: one record per tracked id; `none`
models the TypeError thrown on dereferencing a tracked id that is absent
from the Debate Registry (`d.debateID` with `d` undefined). -/
def collectTracked (s : PNState) : List Int → Option (List Value)
  | [] => some []
  | id :: rest =>
      match mget s.activeDebates id with
      | none => none
      | some d =>
          (collectTracked s rest).map (fun tail =>
            Value.vObj [("debateId", .vInt d.debateID), ("title", .vStr d.title),
                        ("description", .vStr d.description),
                        ("closed", .vBool false)] :: tail)

/-- `getDebates(socket)(callback)`, parameterized by the discussion list the
database resolves for this admin.  A session entry missing for the calling
username throws (`users.get(username).activeDebates` on undefined), as does
dereferencing a tracked id absent from the registry. -/
def getDebates (s : PNState) (username : String) (discussions : List Discussion)
    (callbackIsFn : Bool) : HRes :=
  if !callbackIsFn then { state := s, events := [], threw := false }
  else
    match mget s.users username with
    | none => { state := s, events := [], threw := true }
    | some entry =>
        match collectTracked s entry.activeDebates with
        | none => { state := s, events := [], threw := true }
        | some tracked =>
            { state := s,
              events := [.dbGetDiscussionsAdmin username,
                         .callbackCall (.vArr (tracked ++ discussions.map discussionRecord))],
              threw := false }

/-- `getDebateQuestions(socket)(debateId, callback)`. -/
def getDebateQuestions (s : PNState) (debateId : Value) (callbackIsFn : Bool) : HRes :=
  if !callbackIsFn then { state := s, events := [], threw := false }
  else if !(isInteger debateId) then
    { state := s, events := [.callbackCall (.vInt (-1))], threw := false }
  else
    match getActiveDebate s debateId with
    | none => { state := s, events := [.callbackCall (.vInt (-1))], threw := false }
    | some d =>
        { state := s, events := [.callbackCall (.vArr (d.questions.map formatQuestion))],
          threw := false }

/-- `getDebateSuggestions(socket)(debateId, callback)`. -/
def getDebateSuggestions (s : PNState) (debateId : Value) (callbackIsFn : Bool) : HRes :=
  if !callbackIsFn then { state := s, events := [], threw := false }
  else if !(isInteger debateId) then
    { state := s, events := [.callbackCall (.vInt (-1))], threw := false }
  else
    match getActiveDebate s debateId with
    | none => { state := s, events := [.callbackCall (.vInt (-1))], threw := false }
    | some d =>
        { state := s, events := [.callbackCall (.vArr (getApprovedSuggestions d))],
          threw := false }

/-- The point at which `newDebate` either finished synchronously or is
suspended at the awaited `saveDiscussion` call. -/
inductive NewDebateCut where
  | done (r : HRes)
  | awaitSave (mid : PNState) (events : List Effect) (id : Int)

/-- Synchronous prefix of `newDebate(socket)(newDebateObj, callback)` up to
the awaited `dbManager.saveDiscussion`: callback guard, validation of title
and description, construction and registration of the debate, tracking under
the caller.  Reading `.title` of a null/undefined payload throws; a missing
session entry throws after the registry insertion
(`users.get(username).activeDebates.add`). -/
def newDebate_sync (s : PNState) (username : String) (payload : Value)
    (callbackIsFn : Bool) : NewDebateCut :=
  if !callbackIsFn then .done { state := s, events := [], threw := false }
  else
    match getProp payload "title", getProp payload "description" with
    | some title, some description =>
        if !(isStringMax title MAX_TITLE_LENGTH) ||
           !(isStringMax description MAX_DESCRIPTION_LENGTH) then
          .done { state := s, events := [.callbackCall (.vInt (-1))], threw := false }
        else
          match title, description with
          | .vStr t, .vStr dsc =>
              let id := s.nextDebateID
              let debate := mkDebate id t dsc
              let regged := mset s.activeDebates id debate
              match mget s.users username with
              | none =>
                  .done { state := { s with activeDebates := regged, nextDebateID := id + 1 },
                          events := [], threw := true }
              | some entry =>
                  .awaitSave
                    { s with activeDebates := regged,
                             nextDebateID := id + 1,
                             users := mset s.users username
                               { entry with activeDebates := sadd entry.activeDebates id } }
                    [.dbSaveDiscussion id] id
          | _, _ =>
              .done { state := s, events := [.callbackCall (.vInt (-1))], threw := false }
    | _, _ => .done { state := s, events := [], threw := true }

/-- `newDebate(socket)(newDebateObj, callback)` in full: the synchronous
prefix, then the awaited `saveDiscussion` whose resolution values and
rejection are both swallowed by the attached then/catch (logged only), then
`debate.startSocketHandling()` and the reply with the new debate id. -/
def newDebate (s : PNState) (username : String) (payload : Value) (pout : POutcome)
    (callbackIsFn : Bool) : HRes :=
  match newDebate_sync s username payload callbackIsFn with
  | .done r => r
  | .awaitSave mid events id =>
      match pout with
      | .resolve _ =>
          { state := mid,
            events := events ++ [.debateStartSocketHandling id, .callbackCall (.vInt id)],
            threw := false }
      | .reject _ =>
          { state := mid,
            events := events ++ [.debateStartSocketHandling id, .callbackCall (.vInt id)],
            threw := false }

/-- `closeDebate(socket)(aIdDiscussion, callback)`: reply `false` when the
debate is not found; otherwise delete it from the Debate Registry, delete
`debate.debateID` from the caller's tracked set, await
`saveEndDiscussion` and forward its result verbatim to the callback (an
unhandled rejection of the persistence call throws).  A session entry
missing for the caller throws after the registry deletion. -/
def closeDebate (s : PNState) (username : String) (idv : Value) (pout : POutcome)
    (callbackIsFn : Bool) : HRes :=
  if !callbackIsFn then { state := s, events := [], threw := false }
  else
    match idv, getActiveDebate s idv with
    | .vInt n, some debate =>
        let regged := mdel s.activeDebates n
        match mget s.users username with
        | none => { state := { s with activeDebates := regged }, events := [], threw := true }
        | some entry =>
            let s' := { s with activeDebates := regged,
                               users := mset s.users username
                                 { entry with activeDebates := sdel entry.activeDebates debate.debateID } }
            match pout with
            | .resolve v =>
                { state := s', events := [.dbSaveEndDiscussion n, .callbackCall v],
                  threw := false }
            | .reject _ =>
                { state := s', events := [.dbSaveEndDiscussion n], threw := true }
    | _, _ => { state := s, events := [.callbackCall (.vBool false)], threw := false }

/-- The open-question normalization of `newQuestion`: a non-boolean
`isOpenQuestion` is coerced to false; a true flag discards the supplied
answers before validation. -/
def newQuestionNormalize (answers isOpenQ : Value) : Value × Bool :=
  if !(isBoolean isOpenQ) then (answers, false)
  else
    match isOpenQ with
    | .vBool true => (.vArr [], true)
    | _ => (answers, false)

/-- Coercion of a validated string value (used only after `isString`). -/
def asString : Value → String
  | .vStr s => s
  | _ => ""

/-- Coercion of a validated string-array value (used only after
`isStringArrayMax`). -/
def asStringList : Value → List String
  | .vArr xs => xs.map asString
  | _ => []

/-- `newQuestion(socket)(newQuestionObj, callback)`: callback guard, the
open-question normalization, validation of debateId/title/answers, lookup of
the debate, construction of the question, the awaited broadcast
`sendNewQuestion` and the reply with the question id.  Reading a field of a
null/undefined payload throws. -/
def newQuestion (s : PNState) (payload : Value) (callbackIsFn : Bool) : HRes :=
  if !callbackIsFn then { state := s, events := [], threw := false }
  else
    match getProp payload "debateId", getProp payload "title",
          getProp payload "answers", getProp payload "isOpenQuestion" with
    | some debateId, some title, some answers0, some isOpenQ0 =>
        let norm := newQuestionNormalize answers0 isOpenQ0
        if !(isInteger debateId) || !(isString title) ||
           !(isStringArrayMax norm.1 MAX_CLOSED_ANSWERS) then
          { state := s, events := [.callbackCall (.vInt (-1))], threw := false }
        else
          match debateId, getActiveDebate s debateId with
          | .vInt n, some debate =>
              let q := mkQuestion debate (asString title) (asStringList norm.1) norm.2
              { state := { s with activeDebates := mset s.activeDebates n (debateSendNewQuestion debate q) },
                events := [.sendQuestion n q, .callbackCall (.vInt q.id)],
                threw := false }
          | _, _ => { state := s, events := [.callbackCall (.vInt (-1))], threw := false }
    | _, _, _, _ => { state := s, events := [], threw := true }

/-- `banUser(socket)(banObj, callback)`: callback guard, validation of uuid
and debateId, lookup of the debate; on the success path the log statement
interpolates `suggestionId`, an identifier that is not defined anywhere in
`banUser`, so a ReferenceError is thrown before `callback(true)` is
reached.  Destructuring a null/undefined payload throws. -/
def banUser (s : PNState) (payload : Value) (callbackIsFn : Bool) : HRes :=
  if !callbackIsFn then { state := s, events := [], threw := false }
  else
    match getProp payload "uuid", getProp payload "debateId" with
    | some uuid, some debateId =>
        if !(isString uuid) || !(isInteger debateId) then
          { state := s, events := [.callbackCall (.vBool false)], threw := false }
        else
          match getActiveDebate s debateId with
          | none => { state := s, events := [.callbackCall (.vBool false)], threw := false }
          | some _ => { state := s, events := [], threw := true }
    | _, _ => { state := s, events := [], threw := true }

/-- `approveQuestion(socket)(approveObj, callback)`: callback guard,
validation of suggestionId and debateId, lookup of the debate, delegation to
the suggestion workflow, reply `true` on success and `false` on any
failure.  Destructuring a null/undefined payload throws. -/
def approveQuestion (s : PNState) (payload : Value) (callbackIsFn : Bool) : HRes :=
  if !callbackIsFn then { state := s, events := [], threw := false }
  else
    match getProp payload "suggestionId", getProp payload "debateId" with
    | some sidv, some didv =>
        if !(isInteger sidv) || !(isInteger didv) then
          { state := s, events := [.callbackCall (.vBool false)], threw := false }
        else
          match didv, sidv, getActiveDebate s didv with
          | .vInt n, .vInt sid, some debate =>
              let r := approveSuggestion debate sid
              if r.2 then
                { state := { s with activeDebates := mset s.activeDebates n r.1 },
                  events := [.callbackCall (.vBool true)], threw := false }
              else
                { state := s, events := [.callbackCall (.vBool false)], threw := false }
          | _, _, _ => { state := s, events := [.callbackCall (.vBool false)], threw := false }
    | _, _ => { state := s, events := [], threw := true }

/-- `rejectQuestion(socket)(rejectObj, callback)`: as `approveQuestion` with
the rejecting delegation. -/
def rejectQuestion (s : PNState) (payload : Value) (callbackIsFn : Bool) : HRes :=
  if !callbackIsFn then { state := s, events := [], threw := false }
  else
    match getProp payload "suggestionId", getProp payload "debateId" with
    | some sidv, some didv =>
        if !(isInteger sidv) || !(isInteger didv) then
          { state := s, events := [.callbackCall (.vBool false)], threw := false }
        else
          match didv, sidv, getActiveDebate s didv with
          | .vInt n, .vInt sid, some debate =>
              let r := rejectSuggestion debate sid
              if r.2 then
                { state := { s with activeDebates := mset s.activeDebates n r.1 },
                  events := [.callbackCall (.vBool true)], threw := false }
              else
                { state := s, events := [.callbackCall (.vBool false)], threw := false }
          | _, _, _ => { state := s, events := [.callbackCall (.vBool false)], threw := false }
    | _, _ => { state := s, events := [], threw := true }

/-- Result of the connection-gate middleware: the external calls it made, in
order, and either the resolved moderator id or the error message passed to
`next`. -/
structure MWRes where
  events : List Effect
  ok : Bool
  errMsg : Option String
  userid : Option Int
deriving Repr

/-- `LoginMiddleware.middlewareFunction`, parameterized by collaborator
outcomes: `storedHash` is the value `dbManager.getAdminPassword(username)`
resolves (null when the username is unknown), `cmp` the bcrypt comparison
result (a comparison error resolves to false in the source), `adminId` the
value `getAdminId` resolves. -/
def middlewareFunction (password : Value) (username : String) (storedHash : Value)
    (cmp : Bool) (adminId : Int) : MWRes :=
  if !(truthy password) then
    { events := [], ok := false, errMsg := some "No password specified", userid := none }
  else if !(truthy storedHash) then
    { events := [.dbGetAdminPassword username], ok := false,
      errMsg := some "Invalid username", userid := none }
  else if cmp then
    { events := [.dbGetAdminPassword username, .bcryptCompare, .dbGetAdminId username],
      ok := true, errMsg := none, userid := some adminId }
  else
    { events := [.dbGetAdminPassword username, .bcryptCompare], ok := false,
      errMsg := some "Invalid password", userid := none }

/-- Result of one incoming privileged connection attempt. -/
structure ConnRes where
  state : PNState
  events : List Effect
  handlersAttached : Bool
deriving Repr

/-- Modelled from the spec: the transport runs the Connection Gate before any
event routing; a gate failure rejects the connection, so the `connection`
event of `startSocketHandling` never fires — no session entry is created and
no handlers are attached.  On success the router runs `initializeUsers` and
attaches the event handlers. -/
def handleConnection (s : PNState) (password : Value) (username : String) (socket : Nat)
    (storedHash : Value) (cmp : Bool) (adminId : Int) : ConnRes :=
  let mw := middlewareFunction password username storedHash cmp adminId
  if mw.ok then
    { state := initializeUsers s username socket, events := mw.events,
      handlersAttached := true }
  else
    { state := s, events := mw.events, handlersAttached := false }

/-- One operation of a create/close/connect trace against the namespace. -/
inductive Op where
  | connect (username : String) (socket : Nat)
  | create (username : String) (title description : String)
  | close (username : String) (id : Int)
deriving Repr, DecidableEq

/-- The state transition of one operation, via the actual handlers
(persistence outcomes do not affect the resulting state). -/
def applyOp (s : PNState) : Op → PNState
  | .connect u sock => initializeUsers s u sock
  | .create u t dsc =>
      (newDebate s u (.vObj [("title", .vStr t), ("description", .vStr dsc)])
        (.resolve (.vBool true)) true).state
  | .close u id => (closeDebate s u (.vInt id) (.resolve (.vBool true)) true).state

/-- Run a trace of operations from a state. -/
def runOps (s : PNState) : List Op → PNState
  | [] => s
  | op :: rest => runOps (applyOp s op) rest

/-- Transport-level sanity of one operation: `create` and `close` handlers
only run for connected moderators (their `connection` event has fired), and
a close of a live debate is performed by a moderator whose tracked set holds
that debate id. -/
def okOp (s : PNState) : Op → Bool
  | .connect _ _ => true
  | .create u _ _ => (mget s.users u).isSome
  | .close u id =>
      (mget s.users u).isSome &&
      (match mget s.activeDebates id with
       | none => true
       | some _ => decide (id ∈ trackedOf s u))

/-- Transport-level sanity of a whole trace. -/
def okOps (s : PNState) : List Op → Bool
  | [] => true
  | op :: rest => okOp s op && okOps (applyOp s op) rest

/-! ### Lemmas about the map and set helpers -/

theorem mget_mset_self {α β : Type} [DecidableEq α] (m : List (α × β)) (k : α) (v : β) :
    mget (mset m k v) k = some v := by
  induction m with
  | nil => simp [mget, mset]
  | cons p rest ih =>
      obtain ⟨k', v'⟩ := p
      by_cases h : k' = k
      · subst h; simp [mget, mset]
      · simp [mget, mset, h, ih]

theorem mget_mset_ne {α β : Type} [DecidableEq α] (m : List (α × β)) (k k' : α) (v : β)
    (h : k ≠ k') : mget (mset m k v) k' = mget m k' := by
  induction m with
  | nil => simp [mget, mset, h]
  | cons p rest ih =>
      obtain ⟨k₀, v₀⟩ := p
      by_cases h₀ : k₀ = k
      · subst h₀; simp [mget, mset, h]
      · by_cases h₁ : k₀ = k'
        · subst h₁; simp [mget, mset, h₀]
        · simp [mget, mset, h₀, h₁, ih]

theorem mget_mdel {α β : Type} [DecidableEq α] (m : List (α × β)) (k k' : α) :
    mget (mdel m k) k' = if k' = k then none else mget m k' := by
  induction m with
  | nil => simp [mget, mdel]
  | cons p rest ih =>
      obtain ⟨k₀, v₀⟩ := p
      by_cases h₀ : k₀ = k
      · subst h₀
        simp only [mdel, if_pos rfl, ih, mget]
        by_cases h : k' = k₀
        · subst h; simp [ih]
        · have h' : ¬ (k₀ = k') := fun hh => h hh.symm
          simp [ih, h, h']
      · by_cases h₁ : k₀ = k'
        · subst h₁
          have h' : ¬ (k₀ = k) := h₀
          simp [mdel, mget, h₀, h']
        · simp [mdel, mget, h₀, h₁, ih]

theorem mem_sadd (s : List Int) (x y : Int) : x ∈ sadd s y ↔ (x = y ∨ x ∈ s) := by
  unfold sadd
  by_cases h : y ∈ s
  · simp only [if_pos h]
    constructor
    · exact fun hx => Or.inr hx
    · rintro (rfl | hx)
      · exact h
      · exact hx
  · simp only [if_neg h, List.mem_append, List.mem_singleton]
    tauto

theorem mem_sdel (s : List Int) (x y : Int) : x ∈ sdel s y ↔ (x ∈ s ∧ x ≠ y) := by
  unfold sdel
  simp [List.mem_filter]

/-! ### Lemmas about `initializeUsers` -/

theorem initializeUsers_self (s : PNState) (u : String) (sock : Nat) :
    mget (initializeUsers s u sock).users u = some ⟨sock, trackedOf s u⟩ := by
  unfold initializeUsers trackedOf
  cases h : mget s.users u with
  | none => simp [h, mget_mset_self]
  | some e => simp [h, mget_mset_self]

theorem initializeUsers_other (s : PNState) (u : String) (sock : Nat) (u' : String)
    (h : u ≠ u') : mget (initializeUsers s u sock).users u' = mget s.users u' := by
  unfold initializeUsers
  cases h₀ : mget s.users u with
  | none => simp [mget_mset_ne _ _ _ _ h]
  | some e => simp [mget_mset_ne _ _ _ _ h]

theorem initializeUsers_activeDebates (s : PNState) (u : String) (sock : Nat) :
    (initializeUsers s u sock).activeDebates = s.activeDebates := by
  unfold initializeUsers
  cases mget s.users u <;> rfl

theorem initializeUsers_nextDebateID (s : PNState) (u : String) (sock : Nat) :
    (initializeUsers s u sock).nextDebateID = s.nextDebateID := by
  unfold initializeUsers
  cases mget s.users u <;> rfl

theorem trackedOf_initializeUsers (s : PNState) (u : String) (sock : Nat) (u' : String) :
    trackedOf (initializeUsers s u sock) u' = trackedOf s u' := by
  by_cases h : u = u'
  · subst h
    rw [trackedOf, initializeUsers_self]
  · rw [trackedOf, initializeUsers_other s u sock u' h, trackedOf]

theorem initializeUsers_tracked (s : PNState) (u : String) (sock : Nat) (u₀ : String)
    (e₀ : UserEntry) (h : mget (initializeUsers s u sock).users u₀ = some e₀) :
    ∃ e₁, mget s.users u₀ = some e₁ ∧ e₁.activeDebates = e₀.activeDebates ∨
      (mget s.users u₀ = none ∧ e₀.activeDebates = []) := by
  by_cases hu : u = u₀
  · subst hu
    rw [initializeUsers_self] at h
    cases h₁ : mget s.users u with
    | some e₁ =>
        refine ⟨e₁, Or.inl ⟨rfl, ?_⟩⟩
        have : e₀ = ⟨sock, trackedOf s u⟩ := by injection h with h; exact h.symm
        rw [this]
        simp [trackedOf, h₁]
    | none =>
        refine ⟨⟨0, []⟩, Or.inr ⟨rfl, ?_⟩⟩
        have : e₀ = ⟨sock, trackedOf s u⟩ := by injection h with h; exact h.symm
        rw [this]
        simp [trackedOf, h₁]
  · rw [initializeUsers_other s u sock u₀ hu] at h
    exact ⟨e₀, Or.inl ⟨h, rfl⟩⟩

/-! ### Evaluation lemmas for the create and close handlers -/

/-- The state after a successful `newDebate` by a connected moderator. -/
def createdState (s : PNState) (u : String) (t dsc : String) (e : UserEntry) : PNState :=
  { s with activeDebates := mset s.activeDebates s.nextDebateID (mkDebate s.nextDebateID t dsc),
           nextDebateID := s.nextDebateID + 1,
           users := mset s.users u { e with activeDebates := sadd e.activeDebates s.nextDebateID } }

/-- The state after a successful `closeDebate` of a found debate by a
connected moderator. -/
def closedState (s : PNState) (u : String) (n : Int) (debate : Debate) (e : UserEntry) : PNState :=
  { s with activeDebates := mdel s.activeDebates n,
           users := mset s.users u { e with activeDebates := sdel e.activeDebates debate.debateID } }

theorem newDebate_sync_ok (s : PNState) (u : String) (e : UserEntry) (t dsc : String)
    (he : mget s.users u = some e)
    (ht : t.length ≤ MAX_TITLE_LENGTH) (hd : dsc.length ≤ MAX_DESCRIPTION_LENGTH) :
    newDebate_sync s u (.vObj [("title", .vStr t), ("description", .vStr dsc)]) true =
      .awaitSave (createdState s u t dsc e) [.dbSaveDiscussion s.nextDebateID] s.nextDebateID := by
  simp [newDebate_sync, getProp, mget, isStringMax, ht, hd, he, createdState]

theorem newDebate_ok (s : PNState) (u : String) (e : UserEntry) (t dsc : String)
    (pout : POutcome) (he : mget s.users u = some e)
    (ht : t.length ≤ MAX_TITLE_LENGTH) (hd : dsc.length ≤ MAX_DESCRIPTION_LENGTH) :
    newDebate s u (.vObj [("title", .vStr t), ("description", .vStr dsc)]) pout true =
      { state := createdState s u t dsc e,
        events := [.dbSaveDiscussion s.nextDebateID, .debateStartSocketHandling s.nextDebateID,
                   .callbackCall (.vInt s.nextDebateID)],
        threw := false } := by
  rw [newDebate, newDebate_sync_ok s u e t dsc he ht hd]
  cases pout <;> rfl

theorem newDebate_invalid (s : PNState) (u : String) (t dsc : String) (pout : POutcome)
    (h : ¬(t.length ≤ MAX_TITLE_LENGTH ∧ dsc.length ≤ MAX_DESCRIPTION_LENGTH)) :
    newDebate s u (.vObj [("title", .vStr t), ("description", .vStr dsc)]) pout true =
      { state := s, events := [.callbackCall (.vInt (-1))], threw := false } := by
  rw [newDebate]
  have hcond : (!(isStringMax (.vStr t) MAX_TITLE_LENGTH) ||
      !(isStringMax (.vStr dsc) MAX_DESCRIPTION_LENGTH)) = true := by
    simp [isStringMax]
    omega
  simp [newDebate_sync, getProp, mget, hcond]

/-- The state transition of `Op.create` for a connected moderator, covering
valid and invalid payload bounds. -/
theorem applyOp_create_state (s : PNState) (u : String) (e : UserEntry) (t dsc : String)
    (he : mget s.users u = some e) :
    applyOp s (.create u t dsc) =
      if t.length ≤ MAX_TITLE_LENGTH ∧ dsc.length ≤ MAX_DESCRIPTION_LENGTH then
        createdState s u t dsc e
      else s := by
  by_cases h : t.length ≤ MAX_TITLE_LENGTH ∧ dsc.length ≤ MAX_DESCRIPTION_LENGTH
  · rw [if_pos h, applyOp, newDebate_ok s u e t dsc _ he h.1 h.2]
  · rw [if_neg h, applyOp, newDebate_invalid s u t dsc _ h]

theorem closeDebate_notFound (s : PNState) (u : String) (n : Int) (pout : POutcome)
    (h : mget s.activeDebates n = none) :
    closeDebate s u (.vInt n) pout true =
      { state := s, events := [.callbackCall (.vBool false)], threw := false } := by
  simp [closeDebate, getActiveDebate, h]

theorem closeDebate_found (s : PNState) (u : String) (n : Int) (debate : Debate)
    (e : UserEntry) (pout : POutcome)
    (hd : mget s.activeDebates n = some debate) (he : mget s.users u = some e) :
    closeDebate s u (.vInt n) pout true =
      match pout with
      | .resolve v =>
          { state := closedState s u n debate e,
            events := [.dbSaveEndDiscussion n, .callbackCall v], threw := false }
      | .reject _ =>
          { state := closedState s u n debate e,
            events := [.dbSaveEndDiscussion n], threw := true } := by
  cases pout <;> simp [closeDebate, getActiveDebate, hd, he, closedState]

/-! ### Lemmas about the `getDebates` tracked-set loop -/

theorem collectTracked_none (s : PNState) (ids : List Int) (id : Int)
    (hmem : id ∈ ids) (hmiss : mget s.activeDebates id = none) :
    collectTracked s ids = none := by
  induction ids with
  | nil => cases hmem
  | cons x rest ih =>
      rcases List.mem_cons.mp hmem with rfl | hmem'
      · simp [collectTracked, hmiss]
      · rw [collectTracked]
        cases h : mget s.activeDebates x with
        | none => rfl
        | some d => simp [ih hmem']

theorem collectTracked_some (s : PNState) (ids : List Int)
    (hall : ∀ id ∈ ids, (mget s.activeDebates id).isSome) :
    ∃ vs, collectTracked s ids = some vs := by
  induction ids with
  | nil => exact ⟨[], rfl⟩
  | cons x rest ih =>
      have hx := hall x (List.mem_cons_self x rest)
      cases h : mget s.activeDebates x with
      | none => rw [h] at hx; cases hx
      | some d =>
          obtain ⟨vs, hvs⟩ := ih (fun id hid => hall id (List.mem_cons_of_mem x hid))
          refine ⟨Value.vObj [("debateId", .vInt d.debateID), ("title", .vStr d.title),
            ("description", .vStr d.description), ("closed", .vBool false)] :: vs, ?_⟩
          simp [collectTracked, h, hvs]

theorem initializeUsers_entry (s : PNState) (u : String) (sock : Nat) (u₀ : String)
    (e₁ : UserEntry) (h : mget s.users u₀ = some e₁) :
    ∃ e₀, mget (initializeUsers s u sock).users u₀ = some e₀ ∧
      e₀.activeDebates = e₁.activeDebates := by
  by_cases hu : u = u₀
  · subst hu
    exact ⟨⟨sock, trackedOf s u⟩, initializeUsers_self s u sock, by simp [trackedOf, h]⟩
  · exact ⟨e₁, by rw [initializeUsers_other s u sock u₀ hu]; exact h, rfl⟩

theorem mget_mset_isSome {α β : Type} [DecidableEq α] (m : List (α × β)) (k k' : α) (v : β) :
    (mget (mset m k v) k').isSome ↔ (k' = k ∨ (mget m k').isSome) := by
  by_cases h : k' = k
  · subst h; simp [mget_mset_self]
  · rw [mget_mset_ne m k k' v (fun hh => h hh.symm)]
    simp [h]

/-! ### The registry lockstep invariant -/

/-- The inductive invariant binding the Session Registry and the Debate
Registry: registry bindings carry their own id, tracked ids are live and
tracked by a unique moderator, live ids are tracked by someone, and tracked
ids are below the fresh-id counter. -/
structure GoodState (s : PNState) : Prop where
  regID : ∀ id d, mget s.activeDebates id = some d → d.debateID = id
  trackedLive : ∀ u e id, mget s.users u = some e → id ∈ e.activeDebates →
      (mget s.activeDebates id).isSome
  trackedUnique : ∀ u e u' e' id, mget s.users u = some e → mget s.users u' = some e' →
      id ∈ e.activeDebates → id ∈ e'.activeDebates → u = u'
  liveTracked : ∀ id, (mget s.activeDebates id).isSome →
      ∃ u e, mget s.users u = some e ∧ id ∈ e.activeDebates
  trackedFresh : ∀ u e id, mget s.users u = some e → id ∈ e.activeDebates →
      id < s.nextDebateID

theorem goodState_init : GoodState initState :=
  ⟨fun id d h => by simp [initState, mget] at h,
   fun u e id h => by simp [initState, mget] at h,
   fun u e u' e' id h => by simp [initState, mget] at h,
   fun id h => by simp [initState, mget] at h,
   fun u e id h => by simp [initState, mget] at h⟩

theorem goodState_connect (s : PNState) (h : GoodState s) (u : String) (sock : Nat) :
    GoodState (initializeUsers s u sock) := by
  refine ⟨?_, ?_, ?_, ?_, ?_⟩
  · intro id d hid
    rw [initializeUsers_activeDebates] at hid
    exact h.regID id d hid
  · intro u₀ e₀ id h₀ hid
    rw [initializeUsers_activeDebates]
    obtain ⟨e₁, he₁⟩ := initializeUsers_tracked s u sock u₀ e₀ h₀
    rcases he₁ with ⟨hm, hset⟩ | ⟨_, hempty⟩
    · exact h.trackedLive u₀ e₁ id hm (hset ▸ hid)
    · rw [hempty] at hid; cases hid
  · intro u₀ e₀ u₁ e₁ id h₀ h₁ m₀ m₁
    obtain ⟨f₀, hf₀⟩ := initializeUsers_tracked s u sock u₀ e₀ h₀
    obtain ⟨f₁, hf₁⟩ := initializeUsers_tracked s u sock u₁ e₁ h₁
    rcases hf₀ with ⟨hm₀, hs₀⟩ | ⟨_, hcl₀⟩
    · rcases hf₁ with ⟨hm₁, hs₁⟩ | ⟨_, hcl₁⟩
      · exact h.trackedUnique u₀ f₀ u₁ f₁ id hm₀ hm₁ (hs₀ ▸ m₀) (hs₁ ▸ m₁)
      · rw [hcl₁] at m₁; cases m₁
    · rw [hcl₀] at m₀; cases m₀
  · intro id hid
    rw [initializeUsers_activeDebates] at hid
    obtain ⟨u₁, e₁, hm, hmem⟩ := h.liveTracked id hid
    obtain ⟨e₀, h₀, hs⟩ := initializeUsers_entry s u sock u₁ e₁ hm
    exact ⟨u₁, e₀, h₀, hs ▸ hmem⟩
  · intro u₀ e₀ id h₀ hid
    rw [initializeUsers_nextDebateID]
    obtain ⟨e₁, he₁⟩ := initializeUsers_tracked s u sock u₀ e₀ h₀
    rcases he₁ with ⟨hm, hset⟩ | ⟨_, hempty⟩
    · exact h.trackedFresh u₀ e₁ id hm (hset ▸ hid)
    · rw [hempty] at hid; cases hid

theorem goodState_create (s : PNState) (h : GoodState s) (u : String) (t dsc : String)
    (e : UserEntry) (he : mget s.users u = some e) :
    GoodState (createdState s u t dsc e) := by
  refine ⟨?_, ?_, ?_, ?_, ?_⟩
  · intro id d hid
    by_cases hn : id = s.nextDebateID
    · subst hn
      rw [createdState] at hid
      simp only [mget_mset_self] at hid
      injection hid with hid
      rw [← hid, mkDebate]
    · rw [createdState] at hid
      simp only at hid
      rw [mget_mset_ne _ _ _ _ (fun hh => hn hh.symm)] at hid
      exact h.regID id d hid
  · intro u₀ e₀ id h₀ hid
    rw [createdState] at h₀ ⊢
    simp only at h₀ ⊢
    rw [mget_mset_isSome]
    by_cases hu : u = u₀
    · subst hu
      rw [mget_mset_self] at h₀
      injection h₀ with h₀
      rw [← h₀] at hid
      simp only at hid
      rcases (mem_sadd _ _ _).mp hid with rfl | hmem
      · exact Or.inl rfl
      · exact Or.inr (h.trackedLive u e id he hmem)
    · rw [mget_mset_ne _ _ _ _ hu] at h₀
      exact Or.inr (h.trackedLive u₀ e₀ id h₀ hid)
  · intro u₀ e₀ u₁ e₁ id h₀ h₁ m₀ m₁
    rw [createdState] at h₀ h₁
    simp only at h₀ h₁
    by_cases hu₀ : u = u₀ <;> by_cases hu₁ : u = u₁
    · rw [← hu₀, ← hu₁]
    · subst hu₀
      rw [mget_mset_self] at h₀
      rw [mget_mset_ne _ _ _ _ hu₁] at h₁
      injection h₀ with h₀
      rw [← h₀] at m₀
      simp only at m₀
      rcases (mem_sadd _ _ _).mp m₀ with rfl | hmem
      · exact absurd (h.trackedFresh u₁ e₁ _ h₁ m₁) (lt_irrefl _)
      · exact h.trackedUnique u e u₁ e₁ id he h₁ hmem m₁
    · subst hu₁
      rw [mget_mset_self] at h₁
      rw [mget_mset_ne _ _ _ _ hu₀] at h₀
      injection h₁ with h₁
      rw [← h₁] at m₁
      simp only at m₁
      rcases (mem_sadd _ _ _).mp m₁ with rfl | hmem
      · exact absurd (h.trackedFresh u₀ e₀ _ h₀ m₀) (lt_irrefl _)
      · exact (h.trackedUnique u e u₀ e₀ id he h₀ hmem m₀).symm
    · rw [mget_mset_ne _ _ _ _ hu₀] at h₀
      rw [mget_mset_ne _ _ _ _ hu₁] at h₁
      exact h.trackedUnique u₀ e₀ u₁ e₁ id h₀ h₁ m₀ m₁
  · intro id hid
    rw [createdState] at hid ⊢
    simp only at hid ⊢
    by_cases hn : id = s.nextDebateID
    · subst hn
      refine ⟨u, { e with activeDebates := sadd e.activeDebates s.nextDebateID },
        mget_mset_self _ _ _, ?_⟩
      exact (mem_sadd _ _ _).mpr (Or.inl rfl)
    · rw [mget_mset_isSome] at hid
      rcases hid with rfl | hid
      · exact absurd rfl hn
      · obtain ⟨u₁, e₁, hm, hmem⟩ := h.liveTracked id hid
        by_cases hu : u = u₁
        · subst hu
          refine ⟨u, { e with activeDebates := sadd e.activeDebates s.nextDebateID },
            mget_mset_self _ _ _, ?_⟩
          have : e₁ = e := by rw [he] at hm; injection hm with hm; exact hm.symm
          rw [this] at hmem
          exact (mem_sadd _ _ _).mpr (Or.inr hmem)
        · exact ⟨u₁, e₁, by rw [mget_mset_ne _ _ _ _ hu]; exact hm, hmem⟩
  · intro u₀ e₀ id h₀ hid
    rw [createdState] at h₀ ⊢
    simp only at h₀ ⊢
    by_cases hu : u = u₀
    · subst hu
      rw [mget_mset_self] at h₀
      injection h₀ with h₀
      rw [← h₀] at hid
      simp only at hid
      rcases (mem_sadd _ _ _).mp hid with rfl | hmem
      · omega
      · have := h.trackedFresh u e id he hmem
        omega
    · rw [mget_mset_ne _ _ _ _ hu] at h₀
      have := h.trackedFresh u₀ e₀ id h₀ hid
      omega

theorem goodState_close (s : PNState) (h : GoodState s) (u : String) (n : Int)
    (debate : Debate) (e : UserEntry)
    (hd : mget s.activeDebates n = some debate) (he : mget s.users u = some e)
    (htr : n ∈ e.activeDebates) : GoodState (closedState s u n debate e) := by
  have hID : debate.debateID = n := h.regID n debate hd
  refine ⟨?_, ?_, ?_, ?_, ?_⟩
  · intro id d hid
    rw [closedState] at hid
    simp only at hid
    rw [mget_mdel] at hid
    by_cases hn : id = n
    · rw [if_pos hn] at hid; cases hid
    · rw [if_neg hn] at hid; exact h.regID id d hid
  · intro u₀ e₀ id h₀ hid
    rw [closedState] at h₀ ⊢
    simp only at h₀ ⊢
    rw [mget_mdel]
    by_cases hu : u = u₀
    · subst hu
      rw [mget_mset_self] at h₀
      injection h₀ with h₀
      rw [← h₀] at hid
      simp only at hid
      obtain ⟨hmem, hne⟩ := (mem_sdel _ _ _).mp hid
      rw [hID] at hne
      rw [if_neg hne]
      exact h.trackedLive u e id he hmem
    · rw [mget_mset_ne _ _ _ _ hu] at h₀
      have hne : id ≠ n := by
        intro hn
        subst hn
        exact hu (h.trackedUnique u e u₀ e₀ id he h₀ htr hid)
      rw [if_neg hne]
      exact h.trackedLive u₀ e₀ id h₀ hid
  · intro u₀ e₀ u₁ e₁ id h₀ h₁ m₀ m₁
    rw [closedState] at h₀ h₁
    simp only at h₀ h₁
    by_cases hu₀ : u = u₀ <;> by_cases hu₁ : u = u₁
    · rw [← hu₀, ← hu₁]
    · subst hu₀
      rw [mget_mset_self] at h₀
      rw [mget_mset_ne _ _ _ _ hu₁] at h₁
      injection h₀ with h₀
      rw [← h₀] at m₀
      simp only at m₀
      exact h.trackedUnique u e u₁ e₁ id he h₁ ((mem_sdel _ _ _).mp m₀).1 m₁
    · subst hu₁
      rw [mget_mset_self] at h₁
      rw [mget_mset_ne _ _ _ _ hu₀] at h₀
      injection h₁ with h₁
      rw [← h₁] at m₁
      simp only at m₁
      exact (h.trackedUnique u e u₀ e₀ id he h₀ ((mem_sdel _ _ _).mp m₁).1 m₀).symm
    · rw [mget_mset_ne _ _ _ _ hu₀] at h₀
      rw [mget_mset_ne _ _ _ _ hu₁] at h₁
      exact h.trackedUnique u₀ e₀ u₁ e₁ id h₀ h₁ m₀ m₁
  · intro id hid
    rw [closedState] at hid ⊢
    simp only at hid ⊢
    rw [mget_mdel] at hid
    by_cases hn : id = n
    · rw [if_pos hn] at hid; cases hid
    · rw [if_neg hn] at hid
      obtain ⟨u₁, e₁, hm, hmem⟩ := h.liveTracked id hid
      by_cases hu : u = u₁
      · subst hu
        refine ⟨u, { e with activeDebates := sdel e.activeDebates debate.debateID },
          mget_mset_self _ _ _, ?_⟩
        have : e₁ = e := by rw [he] at hm; injection hm with hm; exact hm.symm
        rw [this] at hmem
        exact (mem_sdel _ _ _).mpr ⟨hmem, by rw [hID]; exact hn⟩
      · exact ⟨u₁, e₁, by rw [mget_mset_ne _ _ _ _ hu]; exact hm, hmem⟩
  · intro u₀ e₀ id h₀ hid
    rw [closedState] at h₀ ⊢
    simp only at h₀ ⊢
    by_cases hu : u = u₀
    · subst hu
      rw [mget_mset_self] at h₀
      injection h₀ with h₀
      rw [← h₀] at hid
      simp only at hid
      exact h.trackedFresh u e id he ((mem_sdel _ _ _).mp hid).1
    · rw [mget_mset_ne _ _ _ _ hu] at h₀
      exact h.trackedFresh u₀ e₀ id h₀ hid

theorem goodState_applyOp (s : PNState) (h : GoodState s) (op : Op)
    (hop : okOp s op = true) : GoodState (applyOp s op) := by
  cases op with
  | connect u sock => exact goodState_connect s h u sock
  | create u t dsc =>
      have hsome : (mget s.users u).isSome := by simpa [okOp] using hop
      obtain ⟨e, he⟩ := Option.isSome_iff_exists.mp hsome
      rw [applyOp_create_state s u e t dsc he]
      by_cases hv : t.length ≤ MAX_TITLE_LENGTH ∧ dsc.length ≤ MAX_DESCRIPTION_LENGTH
      · rw [if_pos hv]
        exact goodState_create s h u t dsc e he
      · rw [if_neg hv]
        exact h
  | close u n =>
      rw [okOp, Bool.and_eq_true] at hop
      obtain ⟨e, he⟩ := Option.isSome_iff_exists.mp hop.1
      cases hd : mget s.activeDebates n with
      | none =>
          rw [applyOp, closeDebate_notFound s u n _ hd]
          exact h
      | some debate =>
          have htr : n ∈ e.activeDebates := by
            have h2 := hop.2
            rw [hd] at h2
            simp only [trackedOf, he] at h2
            exact of_decide_eq_true h2
          rw [applyOp, closeDebate_found s u n debate e _ hd he]
          exact goodState_close s h u n debate e hd he htr

theorem goodState_runOps (s : PNState) (h : GoodState s) (ops : List Op)
    (hok : okOps s ops = true) : GoodState (runOps s ops) := by
  induction ops generalizing s with
  | nil => exact h
  | cons op rest ih =>
      rw [okOps, Bool.and_eq_true] at hok
      rw [runOps]
      exact ih (applyOp s op) (goodState_applyOp s h op hok.1) hok.2

theorem goodState_lockstep (s : PNState) (h : GoodState s) (id : Int) :
    (∃ u, id ∈ trackedOf s u) ↔ (mget s.activeDebates id).isSome := by
  constructor
  · rintro ⟨u, hu⟩
    rw [trackedOf] at hu
    cases he : mget s.users u with
    | none => rw [he] at hu; cases hu
    | some e =>
        rw [he] at hu
        exact h.trackedLive u e id he hu
  · intro hid
    obtain ⟨u, e, he, hm⟩ := h.liveTracked id hid
    refine ⟨u, ?_⟩
    rw [trackedOf, he]
    exact hm

/-! ### Claim theorems -/

/-- C1: the claim says a well-formed ban request (string uuid, integer
debateId bound to a registered debate, function callback) replies `true`
exactly once and never throws; on the code, the success path of `banUser`
throws a ReferenceError — its log statement interpolates `suggestionId`,
which is not defined in `banUser` — before `callback(true)` is reached, so
at this input the handler throws and the callback is never invoked. -/
theorem C1_banUser_success_path_throws :
    (banUser { activeDebates := [(0, mkDebate 0 "T" "D")], users := [("mod", ⟨1, [0]⟩)], nextDebateID := 1 }
       (.vObj [("uuid", .vStr "u1"), ("debateId", .vInt 0)]) true).threw = true ∧
    calls (banUser { activeDebates := [(0, mkDebate 0 "T" "D")], users := [("mod", ⟨1, [0]⟩)], nextDebateID := 1 }
       (.vObj [("uuid", .vStr "u1"), ("debateId", .vInt 0)]) true) = [] :=
  ⟨rfl, rfl⟩

/-- C2 (counterexample): moderator A creates debate 0 — tracked by A and
registered — and then moderator B, also authenticated, closes it: the id
leaves the Debate Registry but remains in A's tracked set, so the close did
not remove the id from the tracking moderator's set and the claimed
tracked-iff-registered equivalence fails after this create/close sequence. -/
theorem C2_close_lockstep_counterexample :
    (mget (runOps initState [.connect "A" 1, .connect "B" 2,
        .create "A" "T" "D"]).activeDebates 0).isSome = true ∧
    0 ∈ trackedOf (runOps initState [.connect "A" 1, .connect "B" 2,
        .create "A" "T" "D"]) "A" ∧
    mget (runOps initState [.connect "A" 1, .connect "B" 2, .create "A" "T" "D",
        .close "B" 0]).activeDebates 0 = none ∧
    0 ∈ trackedOf (runOps initState [.connect "A" 1, .connect "B" 2, .create "A" "T" "D",
        .close "B" 0]) "A" := by
  refine ⟨rfl, by decide, rfl, by decide⟩

/-- C2 (amended): closing a found debate removes the id from the Debate
Registry and from the caller's tracked set; and after any sequence of
connect, create-debate and close-debate operations in which every close of a
live debate is performed by a moderator whose tracked set holds it, an id is
in some moderator's tracked set iff it is in the Debate Registry. -/
theorem C2_close_lockstep_amended :
    (∀ (s : PNState) (u : String) (n : Int) (debate : Debate) (e : UserEntry) (pout : POutcome),
        mget s.activeDebates n = some debate → mget s.users u = some e →
        debate.debateID = n →
        mget (closeDebate s u (.vInt n) pout true).state.activeDebates n = none ∧
        n ∉ trackedOf (closeDebate s u (.vInt n) pout true).state u) ∧
    (∀ ops : List Op, okOps initState ops = true →
        ∀ id : Int, (∃ u, id ∈ trackedOf (runOps initState ops) u) ↔
          (mget (runOps initState ops).activeDebates id).isSome) := by
  constructor
  · intro s u n debate e pout hd he hID
    have h := closeDebate_found s u n debate e pout hd he
    have hstate : (closeDebate s u (.vInt n) pout true).state = closedState s u n debate e := by
      rw [h]; cases pout <;> rfl
    rw [hstate]
    constructor
    · rw [closedState]
      simp only
      rw [mget_mdel]
      simp
    · rw [closedState, trackedOf]
      simp only [mget_mset_self]
      intro hmem
      exact ((mem_sdel _ _ _).mp hmem).2 hID.symm
  · intro ops hok id
    exact goodState_lockstep _ (goodState_runOps initState goodState_init ops hok) id

/-- C3: every debate-id-taking command — list-questions, list-suggestions,
close-debate, new-question, ban-user, approve-suggestion,
reject-suggestion — replies exactly once with its failure sentinel (−1 for
the id-returning commands, false for the boolean ones), does not throw and
leaves the state untouched whenever the supplied id does not resolve in the
Debate Registry and the callback is a function. -/
theorem C3_missing_debate_sentinel (s : PNState) (u : String)
    (idv uuid title answers isOpenQ sidv : Value) (pout : POutcome)
    (hnf : getActiveDebate s idv = none) :
    getDebateQuestions s idv true =
      { state := s, events := [.callbackCall (.vInt (-1))], threw := false } ∧
    getDebateSuggestions s idv true =
      { state := s, events := [.callbackCall (.vInt (-1))], threw := false } ∧
    closeDebate s u idv pout true =
      { state := s, events := [.callbackCall (.vBool false)], threw := false } ∧
    newQuestion s (.vObj [("debateId", idv), ("title", title), ("answers", answers),
        ("isOpenQuestion", isOpenQ)]) true =
      { state := s, events := [.callbackCall (.vInt (-1))], threw := false } ∧
    banUser s (.vObj [("uuid", uuid), ("debateId", idv)]) true =
      { state := s, events := [.callbackCall (.vBool false)], threw := false } ∧
    approveQuestion s (.vObj [("suggestionId", sidv), ("debateId", idv)]) true =
      { state := s, events := [.callbackCall (.vBool false)], threw := false } ∧
    rejectQuestion s (.vObj [("suggestionId", sidv), ("debateId", idv)]) true =
      { state := s, events := [.callbackCall (.vBool false)], threw := false } := by
  refine ⟨?_, ?_, ?_, ?_, ?_, ?_, ?_⟩
  · cases idv <;> simp_all [getDebateQuestions, isInteger, getActiveDebate]
  · cases idv <;> simp_all [getDebateSuggestions, isInteger, getActiveDebate]
  · cases idv <;> simp_all [closeDebate, getActiveDebate]
  · cases idv <;>
      simp [newQuestion, getProp, mget, isInteger, getActiveDebate] <;>
      first
        | rfl
        | (split <;> simp_all [getActiveDebate])
  · cases idv <;>
      simp [banUser, getProp, mget, isInteger, getActiveDebate] <;>
      first
        | rfl
        | (split <;> simp_all [getActiveDebate])
  · cases idv <;>
      simp [approveQuestion, getProp, mget, isInteger, getActiveDebate] <;>
      first
        | rfl
        | (split <;> simp_all [getActiveDebate])
  · cases idv <;>
      simp [rejectQuestion, getProp, mget, isInteger, getActiveDebate] <;>
      first
        | rfl
        | (split <;> simp_all [getActiveDebate])

/-- C3 witness: the theorem applied to a concrete unresolved id. -/
theorem C3_missing_debate_sentinel_witness :
    getActiveDebate initState (.vInt 5) = none ∧
    banUser initState (.vObj [("uuid", .vStr "u"), ("debateId", .vInt 5)]) true =
      { state := initState, events := [.callbackCall (.vBool false)], threw := false } :=
  ⟨rfl, (C3_missing_debate_sentinel initState "mod" (.vInt 5) (.vStr "u") (.vStr "t")
      (.vArr []) (.vBool false) (.vInt 1) (.resolve (.vBool true)) rfl).2.2.2.2.1⟩

/-- C4 (counterexample): the claim promises a sentinel reply and no mutation
for every payload failing validation, but a null payload — a wrong-shape
payload — makes `newDebate` throw a TypeError while reading `.title`, with
no reply at all. -/
theorem C4_validation_counterexample :
    (newDebate initState "mod" .vNull (.resolve (.vBool true)) true).threw = true ∧
    calls (newDebate initState "mod" .vNull (.resolve (.vBool true)) true) = [] :=
  ⟨rfl, rfl⟩

/-- C4 (amended): a payload failing a command's argument validation that is
not null/undefined yields exactly one reply carrying the command's failure
sentinel, no thrown error and no mutation — the handler result holds the
unchanged state and no collaborator call; a null payload to the
object-reading commands instead throws synchronously, still with no
mutation, no reply and no collaborator call. -/
theorem C4_validation_failure_no_mutation (s : PNState) (u : String)
    (idv title dsc qtitle answers isOpenQ uuid sidv : Value) (pout : POutcome) :
    (isInteger idv = false →
        getDebateQuestions s idv true =
          { state := s, events := [.callbackCall (.vInt (-1))], threw := false } ∧
        getDebateSuggestions s idv true =
          { state := s, events := [.callbackCall (.vInt (-1))], threw := false }) ∧
    ((isStringMax title MAX_TITLE_LENGTH && isStringMax dsc MAX_DESCRIPTION_LENGTH) = false →
        newDebate s u (.vObj [("title", title), ("description", dsc)]) pout true =
          { state := s, events := [.callbackCall (.vInt (-1))], threw := false }) ∧
    ((isInteger idv && isString qtitle &&
        isStringArrayMax (newQuestionNormalize answers isOpenQ).1 MAX_CLOSED_ANSWERS) = false →
        newQuestion s (.vObj [("debateId", idv), ("title", qtitle), ("answers", answers),
            ("isOpenQuestion", isOpenQ)]) true =
          { state := s, events := [.callbackCall (.vInt (-1))], threw := false }) ∧
    ((isString uuid && isInteger idv) = false →
        banUser s (.vObj [("uuid", uuid), ("debateId", idv)]) true =
          { state := s, events := [.callbackCall (.vBool false)], threw := false }) ∧
    ((isInteger sidv && isInteger idv) = false →
        approveQuestion s (.vObj [("suggestionId", sidv), ("debateId", idv)]) true =
          { state := s, events := [.callbackCall (.vBool false)], threw := false } ∧
        rejectQuestion s (.vObj [("suggestionId", sidv), ("debateId", idv)]) true =
          { state := s, events := [.callbackCall (.vBool false)], threw := false }) ∧
    (newDebate s u .vNull pout true = { state := s, events := [], threw := true } ∧
     newQuestion s .vNull true = { state := s, events := [], threw := true } ∧
     banUser s .vNull true = { state := s, events := [], threw := true } ∧
     approveQuestion s .vNull true = { state := s, events := [], threw := true } ∧
     rejectQuestion s .vNull true = { state := s, events := [], threw := true }) := by
  refine ⟨?_, ?_, ?_, ?_, ?_, ?_⟩
  · intro h
    constructor <;> simp [getDebateQuestions, getDebateSuggestions, h]
  · intro h
    rw [Bool.and_eq_false_iff] at h
    rcases h with h | h <;>
      simp [newDebate, newDebate_sync, getProp, mget, h]
  · intro h
    simp only [Bool.and_eq_false_iff] at h
    rcases h with (h | h) | h <;>
      simp [newQuestion, getProp, mget, h]
  · intro h
    rw [Bool.and_eq_false_iff] at h
    rcases h with h | h <;>
      simp [banUser, getProp, mget, h]
  · intro h
    rw [Bool.and_eq_false_iff] at h
    constructor <;>
      (rcases h with h | h <;>
        simp [approveQuestion, rejectQuestion, getProp, mget, h])
  · exact ⟨rfl, rfl, rfl, rfl, rfl⟩

/-- C4 witness: the amended theorem applied at concrete invalid payloads. -/
theorem C4_validation_failure_no_mutation_witness :
    isInteger (.vStr "x") = false ∧
    (isStringMax (.vInt 0) MAX_TITLE_LENGTH && isStringMax (.vStr "d") MAX_DESCRIPTION_LENGTH) = false ∧
    banUser initState (.vObj [("uuid", .vStr "u"), ("debateId", .vStr "x")]) true =
      { state := initState, events := [.callbackCall (.vBool false)], threw := false } :=
  ⟨rfl, rfl,
    (C4_validation_failure_no_mutation initState "mod" (.vStr "x") (.vInt 0) (.vStr "d")
      (.vStr "q") (.vArr []) (.vBool false) (.vStr "u") (.vStr "sid")
      (.resolve (.vBool true))).2.2.2.1 rfl⟩

/-- C5: a new-question request flagged open-ended constructs a question with
an empty answer list no matter what value — array or not — was supplied in
the answers field, and replies with the new question id. -/
theorem C5_open_question_empty_answers (s : PNState) (n : Int) (debate : Debate)
    (t : String) (answers : Value) (hd : mget s.activeDebates n = some debate) :
    newQuestion s (.vObj [("debateId", .vInt n), ("title", .vStr t),
        ("answers", answers), ("isOpenQuestion", .vBool true)]) true =
      { state := { s with activeDebates := mset s.activeDebates n (debateSendNewQuestion debate (mkQuestion debate t [] true)) },
        events := [.sendQuestion n (mkQuestion debate t [] true),
                   .callbackCall (.vInt (mkQuestion debate t [] true).id)],
        threw := false } ∧
    (mkQuestion debate t [] true).answers = [] := by
  constructor
  · simp [newQuestion, getProp, mget, newQuestionNormalize, isBoolean, isInteger, isString,
      isStringArrayMax, getActiveDebate, hd, asString, asStringList]
  · rfl

/-- C5 witness: the theorem applied with a non-array answers value. -/
theorem C5_open_question_empty_answers_witness :
    mget ({ activeDebates := [(0, mkDebate 0 "T" "D")], users := [("mod", ⟨1, [0]⟩)], nextDebateID := 1 } : PNState).activeDebates 0 = some (mkDebate 0 "T" "D") ∧
    (mkQuestion (mkDebate 0 "T" "D") "Q" [] true).answers = [] :=
  ⟨rfl,
    (C5_open_question_empty_answers { activeDebates := [(0, mkDebate 0 "T" "D")], users := [("mod", ⟨1, [0]⟩)], nextDebateID := 1 }
      0 (mkDebate 0 "T" "D") "Q" (.vInt 42) rfl).2⟩

/-- C6: re-initializing a known moderator identity replaces only the
connection handle and preserves the tracked debate-id set; an unknown
identity gets a fresh entry with an empty tracked set; entries of other
identities are untouched; and repeated initialization with the same identity
is idempotent with respect to the tracked set. -/
theorem C6_initializeUsers_reconnect (s : PNState) (u : String) (sock sock' : Nat) :
    (∀ e, mget s.users u = some e →
        mget (initializeUsers s u sock').users u = some ⟨sock', e.activeDebates⟩) ∧
    (mget s.users u = none →
        mget (initializeUsers s u sock').users u = some ⟨sock', []⟩) ∧
    (∀ u', u ≠ u' → mget (initializeUsers s u sock').users u' = mget s.users u') ∧
    trackedOf (initializeUsers (initializeUsers s u sock) u sock') u =
      trackedOf (initializeUsers s u sock') u := by
  refine ⟨?_, ?_, ?_, ?_⟩
  · intro e he
    rw [initializeUsers_self]
    simp [trackedOf, he]
  · intro he
    rw [initializeUsers_self]
    simp [trackedOf, he]
  · exact fun u' h => initializeUsers_other s u sock' u' h
  · rw [trackedOf_initializeUsers, trackedOf_initializeUsers, trackedOf_initializeUsers]

/-- C6 witness: the theorem applied to a reconnect of a known identity. -/
theorem C6_initializeUsers_reconnect_witness :
    mget ({ activeDebates := [], users := [("mod", ⟨3, [7]⟩)], nextDebateID := 8 } : PNState).users "mod" = some ⟨3, [7]⟩ ∧
    mget (initializeUsers { activeDebates := [], users := [("mod", ⟨3, [7]⟩)], nextDebateID := 8 } "mod" 9).users "mod" = some ⟨9, [7]⟩ :=
  ⟨rfl,
    (C6_initializeUsers_reconnect { activeDebates := [], users := [("mod", ⟨3, [7]⟩)], nextDebateID := 8 }
      "mod" 3 9).1 ⟨3, [7]⟩ rfl⟩

/-- C7: a valid create-debate registers the new debate and tracks it under
the caller already in the state at the awaited persistence call (the
synchronous prefix suspends at `saveDiscussion` with both registries
updated), and for every persistence outcome — resolution or rejection — the
reply callback receives the new debate id and the debate remains registered
and tracked. -/
theorem C7_newDebate_registers_before_persist (s : PNState) (u : String) (e : UserEntry)
    (t dsc : String) (pout : POutcome) (he : mget s.users u = some e)
    (ht : t.length ≤ MAX_TITLE_LENGTH) (hd : dsc.length ≤ MAX_DESCRIPTION_LENGTH) :
    newDebate_sync s u (.vObj [("title", .vStr t), ("description", .vStr dsc)]) true =
      .awaitSave (createdState s u t dsc e) [.dbSaveDiscussion s.nextDebateID] s.nextDebateID ∧
    (mget (createdState s u t dsc e).activeDebates s.nextDebateID).isSome = true ∧
    s.nextDebateID ∈ trackedOf (createdState s u t dsc e) u ∧
    calls (newDebate s u (.vObj [("title", .vStr t), ("description", .vStr dsc)]) pout true) =
      [.vInt s.nextDebateID] ∧
    (newDebate s u (.vObj [("title", .vStr t), ("description", .vStr dsc)]) pout true).threw = false ∧
    (mget (newDebate s u (.vObj [("title", .vStr t), ("description", .vStr dsc)]) pout true).state.activeDebates s.nextDebateID).isSome = true ∧
    s.nextDebateID ∈ trackedOf (newDebate s u (.vObj [("title", .vStr t), ("description", .vStr dsc)]) pout true).state u := by
  have hsync := newDebate_sync_ok s u e t dsc he ht hd
  have hfull := newDebate_ok s u e t dsc pout he ht hd
  have hreg : (mget (createdState s u t dsc e).activeDebates s.nextDebateID).isSome = true := by
    rw [createdState]
    simp [mget_mset_self]
  have htrk : s.nextDebateID ∈ trackedOf (createdState s u t dsc e) u := by
    rw [trackedOf, createdState]
    simp only [mget_mset_self]
    exact (mem_sadd _ _ _).mpr (Or.inl rfl)
  refine ⟨hsync, hreg, htrk, ?_, ?_, ?_, ?_⟩
  · rw [hfull]
    rfl
  · rw [hfull]
  · rw [hfull]
    exact hreg
  · rw [hfull]
    exact htrk

/-- C7 witness: the theorem applied with a rejecting persistence call. -/
theorem C7_newDebate_registers_before_persist_witness :
    mget ({ activeDebates := [], users := [("mod", ⟨1, []⟩)], nextDebateID := 0 } : PNState).users "mod" = some ⟨1, []⟩ ∧
    ("T" : String).length ≤ MAX_TITLE_LENGTH ∧
    ("D" : String).length ≤ MAX_DESCRIPTION_LENGTH ∧
    calls (newDebate { activeDebates := [], users := [("mod", ⟨1, []⟩)], nextDebateID := 0 } "mod"
      (.vObj [("title", .vStr "T"), ("description", .vStr "D")]) (.reject (.vStr "boom")) true) = [.vInt 0] :=
  ⟨rfl, by decide, by decide,
    (C7_newDebate_registers_before_persist { activeDebates := [], users := [("mod", ⟨1, []⟩)], nextDebateID := 0 }
      "mod" ⟨1, []⟩ "T" "D" (.reject (.vStr "boom")) rfl (by decide) (by decide)).2.2.2.1⟩

/-- C8: for a close of a found debate, the value handed to the reply
callback is exactly the value the close-marker persistence call resolves,
forwarded verbatim after the in-memory removal. -/
theorem C8_closeDebate_forwards_persistence_result (s : PNState) (u : String) (n : Int)
    (debate : Debate) (e : UserEntry) (v : Value)
    (hd : mget s.activeDebates n = some debate) (he : mget s.users u = some e) :
    closeDebate s u (.vInt n) (.resolve v) true =
      { state := closedState s u n debate e,
        events := [.dbSaveEndDiscussion n, .callbackCall v], threw := false } ∧
    calls (closeDebate s u (.vInt n) (.resolve v) true) = [v] := by
  have h := closeDebate_found s u n debate e (.resolve v) hd he
  refine ⟨h, ?_⟩
  rw [h]
  rfl

/-- C8 witness: the theorem applied with an arbitrary-looking persistence
result value, forwarded as the reply. -/
theorem C8_closeDebate_forwards_persistence_result_witness :
    mget ({ activeDebates := [(0, mkDebate 0 "T" "D")], users := [("mod", ⟨1, [0]⟩)], nextDebateID := 1 } : PNState).activeDebates 0 = some (mkDebate 0 "T" "D") ∧
    calls (closeDebate { activeDebates := [(0, mkDebate 0 "T" "D")], users := [("mod", ⟨1, [0]⟩)], nextDebateID := 1 }
      "mod" (.vInt 0) (.resolve (.vStr "weird")) true) = [.vStr "weird"] :=
  ⟨rfl,
    (C8_closeDebate_forwards_persistence_result { activeDebates := [(0, mkDebate 0 "T" "D")], users := [("mod", ⟨1, [0]⟩)], nextDebateID := 1 }
      "mod" 0 (mkDebate 0 "T" "D") ⟨1, [0]⟩ (.vStr "weird") rfl rfl).2⟩

/-- C9: a handshake with no secret fails the Connection Gate immediately
with no Credential Verifier work at all — no stored-hash lookup and no hash
comparison — and any gate failure leaves the Session Registry exactly as it
was and attaches no event handlers. -/
theorem C9_connection_gate (s : PNState) (password : Value) (u : String) (sock : Nat)
    (storedHash : Value) (cmp : Bool) (adminId : Int) :
    (truthy password = false →
        (middlewareFunction password u storedHash cmp adminId).ok = false ∧
        (middlewareFunction password u storedHash cmp adminId).events = []) ∧
    ((middlewareFunction password u storedHash cmp adminId).ok = false →
        (handleConnection s password u sock storedHash cmp adminId).state = s ∧
        (handleConnection s password u sock storedHash cmp adminId).handlersAttached = false) := by
  constructor
  · intro h
    constructor <;> simp [middlewareFunction, h]
  · intro h
    constructor <;> simp [handleConnection, h]

/-- C9 witness: the theorem applied to a handshake with an undefined
password query parameter. -/
theorem C9_connection_gate_witness :
    truthy .vUndefined = false ∧
    (middlewareFunction .vUndefined "root" (.vStr "hash") true 5).events = [] ∧
    (handleConnection initState .vUndefined "root" 1 (.vStr "hash") true 5).handlersAttached = false := by
  have h := C9_connection_gate initState .vUndefined "root" 1 (.vStr "hash") true 5
  exact ⟨rfl, (h.1 rfl).2, (h.2 (h.1 rfl).1).2⟩

/-- C10: `getDebates` delivers a reply exactly when every id in the caller's
tracked set resolves in the Debate Registry — a dangling tracked id makes
the handler throw while dereferencing it and the callback is never
invoked — and such a state is reachable when a second moderator closes a
debate the first created, since close-debate untracks only the caller. -/
theorem C10_getDebates_dangling_tracked_id (s : PNState) (u : String) (e : UserEntry)
    (discussions : List Discussion) (he : mget s.users u = some e) :
    ((∃ id, id ∈ e.activeDebates ∧ mget s.activeDebates id = none) →
        (getDebates s u discussions true).threw = true ∧
        calls (getDebates s u discussions true) = []) ∧
    ((∀ id ∈ e.activeDebates, (mget s.activeDebates id).isSome) →
        (getDebates s u discussions true).threw = false ∧
        ∃ vs, calls (getDebates s u discussions true) = [.vArr vs]) ∧
    (mget (runOps initState [.connect "A" 1, .connect "B" 2, .create "A" "T" "D",
        .close "B" 0]).activeDebates 0 = none ∧
     0 ∈ trackedOf (runOps initState [.connect "A" 1, .connect "B" 2, .create "A" "T" "D",
        .close "B" 0]) "A") := by
  refine ⟨?_, ?_, rfl, by decide⟩
  · rintro ⟨id, hmem, hmiss⟩
    have hc := collectTracked_none s e.activeDebates id hmem hmiss
    constructor <;> simp [getDebates, he, hc, calls]
  · intro hall
    obtain ⟨vs, hvs⟩ := collectTracked_some s e.activeDebates hall
    constructor
    · simp [getDebates, he, hvs]
    · refine ⟨vs ++ discussions.map discussionRecord, ?_⟩
      simp [getDebates, he, hvs, calls]

/-- C10 witness: the theorem applied at the reachable state in which a
foreign close left a dangling tracked id. -/
theorem C10_getDebates_dangling_tracked_id_witness :
    mget (runOps initState [.connect "A" 1, .connect "B" 2, .create "A" "T" "D",
        .close "B" 0]).users "A" = some ⟨1, [0]⟩ ∧
    (0 ∈ ([0] : List Int) ∧ mget (runOps initState [.connect "A" 1, .connect "B" 2,
        .create "A" "T" "D", .close "B" 0]).activeDebates 0 = none) ∧
    (getDebates (runOps initState [.connect "A" 1, .connect "B" 2, .create "A" "T" "D",
        .close "B" 0]) "A" [] true).threw = true :=
  ⟨rfl, ⟨by decide, rfl⟩,
    ((C10_getDebates_dangling_tracked_id (runOps initState [.connect "A" 1, .connect "B" 2,
        .create "A" "T" "D", .close "B" 0]) "A" ⟨1, [0]⟩ [] rfl).1 ⟨0, by decide, rfl⟩).1⟩

/-- C2 witness: the amended lockstep equivalence applied to a trace in which
the creator closes its own debate. -/
theorem C2_close_lockstep_amended_witness :
    okOps initState [.connect "A" 1, .create "A" "T" "D", .close "A" 0] = true ∧
    ((∃ u, 0 ∈ trackedOf (runOps initState [.connect "A" 1, .create "A" "T" "D",
        .close "A" 0]) u) ↔
      (mget (runOps initState [.connect "A" 1, .create "A" "T" "D",
        .close "A" 0]).activeDebates 0).isSome) :=
  ⟨by decide,
    C2_close_lockstep_amended.2 [.connect "A" 1, .create "A" "T" "D", .close "A" 0]
      (by decide) 0⟩
